import Mathlib

/-
  Verification of the insider-detect web dashboard against its
  natural-language specification.

  Embedded source files:
    - src/web-dashboard/src/api.ts  (API client and throughput formatting)
    - src/unnamed/part_000          (the React dashboard load routine)

  The scoring core described by the spec (EnsembleFuser, PostFilter,
  RateLimiter, StatisticsAggregator) is not present under src/; those
  components are modelled from the spec where a claim needs them, and each
  such definition says so in its doc comment.

  JavaScript numbers are modelled as rationals; an optional field that the
  source only reads through a typeof-number guard is modelled as Option Rat,
  with none standing for absent-or-not-a-number.
-/

/-- Decimal digit character, mirroring how JS renders numbers in template
strings: 48 is the code point of the character for zero. -/
def digitChar (d : Nat) : Char := Char.ofNat (48 + d)

/-- Fuel-driven accumulation of the decimal digits of a natural number,
most significant first. -/
def natStrAux : Nat → Nat → List Char → List Char
  | 0, _, acc => acc
  | fuel + 1, n, acc =>
    if n < 10 then digitChar n :: acc
    else natStrAux fuel (n / 10) (digitChar (n % 10) :: acc)

/-- Decimal rendering of a natural number, as JS string conversion does. -/
def natStr (n : Nat) : String := ⟨natStrAux (n + 1) n []⟩

/-- Model of the JS Number.prototype.toFixed with 2 fraction digits on an
idealized (rational) number: the magnitude is rounded half up to a whole
number of hundredths computed from numerator and denominator, then the
string is sign, integer part, a dot and exactly two fraction digits. -/
def toFixed2 (q : Rat) : String :=
  let cents : Nat := (200 * q.num.natAbs + q.den) / (2 * q.den)
  (if q.num < 0 then "-" else "") ++ natStr (cents / 100) ++ "." ++
    (if cents % 100 < 10 then "0" else "") ++ natStr (cents % 100)

/-- Embeds the HealthResponse type of src/web-dashboard/src/api.ts. -/
structure HealthResponse where
  status : String
deriving DecidableEq

/-- Embeds the ModelInfoResponse type of src/web-dashboard/src/api.ts.
All three fields are optional in the source; requests_per_min is some r
when the field is present with a numeric value and none when it is absent
or not a number, since the source reads it only through a typeof guard. -/
structure ModelInfoResponse where
  model_name : Option String
  xgb_version : Option String
  requests_per_min : Option Rat
deriving DecidableEq

/-- Embeds the StatisticsResponse type of src/web-dashboard/src/api.ts.
The source declares exactly these three optional fields. -/
structure StatisticsResponse where
  total_requests : Option Rat
  requests_per_min : Option Rat
  uptime_seconds : Option Rat
deriving DecidableEq

/-- Field names declared by the StatisticsResponse type in
src/web-dashboard/src/api.ts, in declaration order. -/
def StatisticsResponseFields : List String :=
  ["total_requests", "requests_per_min", "uptime_seconds"]

/-- Model of a settled fetch Response as the three API client functions
consume it: the ok flag, the numeric HTTP status, and the parsed JSON body
(json parsing is external to the embedded code and modelled as succeeded). -/
structure FetchResponse (α : Type) where
  ok : Bool
  status : Nat
  body : α

/-- Embeds getHealth of src/web-dashboard/src/api.ts: throw on not-ok,
otherwise return the parsed body. -/
def getHealth (res : FetchResponse HealthResponse) : Except String HealthResponse :=
  if !res.ok then .error ("Health " ++ natStr res.status) else .ok res.body

/-- Embeds getModelInfo of src/web-dashboard/src/api.ts. -/
def getModelInfo (res : FetchResponse ModelInfoResponse) : Except String ModelInfoResponse :=
  if !res.ok then .error ("ModelInfo " ++ natStr res.status) else .ok res.body

/-- Embeds getStatistics of src/web-dashboard/src/api.ts. -/
def getStatistics (res : FetchResponse StatisticsResponse) : Except String StatisticsResponse :=
  if !res.ok then .error ("Statistics " ++ natStr res.status) else .ok res.body

/-- Embeds formatThroughputFromStats of src/web-dashboard/src/api.ts:
a falsy stats argument or a requests_per_min that is not a number yields
the placeholder, otherwise requests_per_min over 60 to two decimals. -/
def formatThroughputFromStats (stats : Option StatisticsResponse) : String :=
  match stats with
  | none => "-- req/s"
  | some s =>
    match s.requests_per_min with
    | none => "-- req/s"
    | some rpm => toFixed2 (rpm / 60) ++ " req/s"

/-- Embeds the apiStatus state of the App component in src/unnamed/part_000,
a three-valued union in the source. -/
inductive ApiStatus where
  | loading
  | up
  | down
deriving DecidableEq

/-- Embeds the three state variables the App component renders: apiStatus,
modelName and throughput. -/
structure DashboardState where
  apiStatus : ApiStatus
  modelName : String
  throughput : String
deriving DecidableEq

/-- Model of the JS or-else idiom a || b on an optional string a, as the
load routine uses it: an absent field and the empty string are falsy. -/
def jsOr (a : Option String) (b : String) : String :=
  match a with
  | some s => if s = "" then b else s
  | none => b

/-- Embeds the health branch of the load routine in src/unnamed/part_000:
apiStatus becomes up exactly on a resolved health response whose status
field equals the string ok, and down on any other outcome. -/
def loadApiStatus (hr : Except String HealthResponse) : ApiStatus :=
  match hr with
  | .ok h => if h.status = "ok" then .up else .down
  | .error _ => .down

/-- Embeds the model-name assignment of the load routine in
src/unnamed/part_000: on a resolved model-info response the name is
model_name or-else xgb_version or-else the fallback literal, and on a
thrown error the literal Unavailable. -/
def loadModelName (ir : Except String ModelInfoResponse) : String :=
  match ir with
  | .ok info => jsOr info.model_name (jsOr info.xgb_version "Hybrid Model")
  | .error _ => "Unavailable"

/-- Embeds the throughput assignment of the load routine in
src/unnamed/part_000: a numeric requests_per_min in the model-info
response is divided by 60 and formatted directly; otherwise the routine
falls back to the statistics response through formatThroughputFromStats,
and keeps the initial placeholder when that fetch throws. -/
def loadThroughput (ir : Except String ModelInfoResponse)
    (sr : Except String StatisticsResponse) : String :=
  match ir with
  | .ok info =>
    match info.requests_per_min with
    | some rpm => toFixed2 (rpm / 60) ++ " req/s"
    | none =>
      match sr with
      | .ok stats => formatThroughputFromStats (some stats)
      | .error _ => "-- req/s"
  | .error _ =>
    match sr with
    | .ok stats => formatThroughputFromStats (some stats)
    | .error _ => "-- req/s"

/-- Embeds one run of the load routine of src/unnamed/part_000 from the
initial component state, as a function of the settled outcomes of the three
awaited API calls; a .error argument stands for a call that threw. -/
def load (hr : Except String HealthResponse) (ir : Except String ModelInfoResponse)
    (sr : Except String StatisticsResponse) : DashboardState :=
  ⟨loadApiStatus hr, loadModelName ir, loadThroughput ir sr⟩

/-- Modelled from the spec: the EnsembleFuser configuration of section 4.3
is not under src/; weights and threshold are injected configuration. -/
structure FuserConfig where
  w_xgb : Rat
  w_lstm : Rat
  threshold : Rat

/-- Modelled from the spec: the default fuser configuration, weights 0.6
and 0.4 and decision threshold 0.5. -/
def defaultFuserConfig : FuserConfig := ⟨6/10, 4/10, 1/2⟩

/-- Modelled from the spec: the fuse contract of section 4.3; a sub-score
out of the unit interval fails with ScoringAnomalyError rather than being
clamped, otherwise the fused score is the configured weighted sum. -/
def fuse (cfg : FuserConfig) (xgb lstm : Rat) : Except String Rat :=
  if xgb < 0 ∨ 1 < xgb ∨ lstm < 0 ∨ 1 < lstm then .error "ScoringAnomalyError"
  else .ok (cfg.w_xgb * xgb + cfg.w_lstm * lstm)

/-- Modelled from the spec: the alert decision of section 4.3, true exactly
when the fused score reaches the configured threshold. -/
def isAlert (cfg : FuserConfig) (fused : Rat) : Bool := cfg.threshold ≤ fused

/-- Modelled from the spec: the raw counts the PredictionStore hands to the
StatisticsAggregator in section 4.8. -/
structure StoreAggregate where
  total_requests : Nat
  alerts : Nat
  requests_last_60s : Nat

/-- Modelled from the spec: the derived StatisticsSnapshot record of
section 3, recomputed on read. -/
structure StatisticsSnapshot where
  total_requests : Nat
  alert_rate : Rat
  requests_per_min : Nat
  uptime_seconds : Rat

/-- Modelled from the spec: the alert-rate computation of section 4.8,
zero when the store holds no predictions and the quotient of alerts by
total requests otherwise. -/
def alert_rate (agg : StoreAggregate) : Rat :=
  if agg.total_requests = 0 then 0
  else (agg.alerts : Rat) / (agg.total_requests : Rat)

/-- Modelled from the spec: the snapshot contract of section 4.8, computed
on demand from the store aggregate and the process uptime. -/
def snapshot (agg : StoreAggregate) (uptime : Rat) : StatisticsSnapshot :=
  ⟨agg.total_requests, alert_rate agg, agg.requests_last_60s, uptime⟩

/-- Modelled from the spec: the Event record of section 3 as the PostFilter
consumes it; the open attribute map is omitted as no filter rule reads it. -/
structure Event where
  timestamp : Rat
  user_id : String
  action : String
  source_ip : String

/-- Modelled from the spec: the Verdict record of section 3. -/
structure Verdict where
  fused_score : Rat
  xgb_score : Rat
  lstm_score : Rat
  is_alert : Bool
  filtered : Bool
  reason : Option String
  model_version : String
  computed_at : Rat
deriving DecidableEq

/-- Modelled from the spec: the PostFilter parameters of section 4.4, the
minimum session duration and the benign action-sequence patterns. -/
structure PostFilterConfig where
  min_duration : Rat
  benign_patterns : List (List String)

/-- Modelled from the spec: session duration as last timestamp minus first
timestamp, used by PostFilter rule b. -/
def sessionDuration (s : List Event) : Rat :=
  ((s.getLast?.map Event.timestamp).getD 0) - ((s.head?.map Event.timestamp).getD 0)

/-- Modelled from the spec: the event-action sequence of a session, read by
PostFilter rule c. -/
def actionSeq (s : List Event) : List String := s.map Event.action

/-- Modelled from the spec: the benign-pattern match of PostFilter rule c,
exact or prefix match against the configured list. -/
def matchesBenign (patterns : List (List String)) (acts : List String) : Bool :=
  patterns.any fun p => p == acts || p.isPrefixOf acts

/-- Modelled from the spec: the filter contract of section 4.4; rules a, b
and c are tried in that fixed order, the first match demotes is_alert,
sets filtered and records its reason, and a session passing all rules
returns the verdict unchanged. Scores are never altered. -/
def filter (cfg : PostFilterConfig) (s : List Event) (v : Verdict) : Verdict :=
  if s.length = 1 then
    ⟨v.fused_score, v.xgb_score, v.lstm_score, false, true, some "single_action",
      v.model_version, v.computed_at⟩
  else if sessionDuration s < cfg.min_duration then
    ⟨v.fused_score, v.xgb_score, v.lstm_score, false, true, some "short_duration",
      v.model_version, v.computed_at⟩
  else if matchesBenign cfg.benign_patterns (actionSeq s) then
    ⟨v.fused_score, v.xgb_score, v.lstm_score, false, true, some "benign_pattern",
      v.model_version, v.computed_at⟩
  else v

/-- Modelled from the spec: the RateLimiter parameters of section 4.6,
a per-client quota of admissions per fixed window; times are modelled as
whole seconds. -/
structure RateLimiterConfig where
  quota : Nat
  window : Int

/-- Modelled from the spec: the default rate-limit configuration, 100
admissions per 60-second window. -/
def defaultRateLimiterConfig : RateLimiterConfig := ⟨100, 60⟩

/-- Modelled from the spec: the per-client window record of the
RateLimiter, the start of the current window and the admissions counted
inside it. -/
structure ClientWindow where
  window_start : Int
  count : Nat
deriving DecidableEq

/-- Modelled from the spec: lookup of a client entry in the limiter state,
kept as an association list from client_id to its window. -/
def lookupClient : List (String × ClientWindow) → String → Option ClientWindow
  | [], _ => none
  | (k, w) :: rest, c => if k = c then some w else lookupClient rest c

/-- Modelled from the spec: replacement or insertion of a client entry in
the limiter state. -/
def setClient : List (String × ClientWindow) → String → ClientWindow →
    List (String × ClientWindow)
  | [], c, w => [(c, w)]
  | (k, w0) :: rest, c, w =>
    if k = c then (c, w) :: rest else (k, w0) :: setClient rest c w

/-- Modelled from the spec: the admission contract of section 4.6 as a
fixed window per client_id; an unknown client or an elapsed window starts
a fresh window with one admission, a client under quota is admitted and
counted, and a client at quota inside the window is denied with a
distinguishable RateLimitExceededError, the state unchanged. -/
def accept (cfg : RateLimiterConfig) (st : List (String × ClientWindow))
    (client : String) (now : Int) : Except String (List (String × ClientWindow)) :=
  match lookupClient st client with
  | none => .ok (setClient st client ⟨now, 1⟩)
  | some w =>
    if cfg.window ≤ now - w.window_start then
      .ok (setClient st client ⟨now, 1⟩)
    else if w.count < cfg.quota then
      .ok (setClient st client ⟨w.window_start, w.count + 1⟩)
    else
      .error "RateLimitExceededError"

/-- Modelled from the spec: n successive admission requests by one client
at one instant; some holds the final state when every request was admitted
and none records that some request was denied. -/
def acceptRepeat (cfg : RateLimiterConfig) (client : String) (now : Int) :
    Nat → List (String × ClientWindow) → Option (List (String × ClientWindow))
  | 0, st => some st
  | n + 1, st =>
    match accept cfg st client now with
    | .ok st2 => acceptRepeat cfg client now n st2
    | .error _ => none

example : natStr 0 = "0" := rfl
example : natStr 123 = "123" := rfl
example : toFixed2 2 = "2.00" := by decide
example : toFixed2 (mkRat 1 10) = "0.10" := by decide
example : toFixed2 (mkRat (-1) 2) = "-0.50" := by decide

theorem natStrAux_length (fuel : Nat) :
    ∀ (n : Nat) (acc : List Char), acc.length < (natStrAux (fuel + 1) n acc).length := by
  induction fuel with
  | zero =>
    intro n acc
    simp only [natStrAux]
    split
    · simp
    · simp [natStrAux]
  | succ f ih =>
    intro n acc
    simp only [natStrAux]
    split
    · simp
    · exact Nat.lt_trans (by simp) (ih (n / 10) (digitChar (n % 10) :: acc))

theorem natStr_length_pos (n : Nat) : 0 < (natStr n).length :=
  natStrAux_length n n []

theorem toFixed2_length (q : Rat) : 3 ≤ (toFixed2 q).length := by
  have h1 := natStr_length_pos ((200 * q.num.natAbs + q.den) / (2 * q.den) / 100)
  have h2 := natStr_length_pos ((200 * q.num.natAbs + q.den) / (2 * q.den) % 100)
  simp only [toFixed2, String.length_append]
  have hd : (".").length = 1 := rfl
  rw [hd]
  omega

theorem toFixed2_append_ne_placeholder (q : Rat) :
    toFixed2 q ++ " req/s" ≠ "-- req/s" := by
  intro h
  have hl := congrArg String.length h
  rw [String.length_append] at hl
  have h3 := toFixed2_length q
  have hr : (" req/s").length = 6 := rfl
  have hp : ("-- req/s").length = 8 := rfl
  rw [hr, hp] at hl
  omega

/-- C4: formatThroughputFromStats is a total, deterministic function that
returns the placeholder string exactly when the stats argument is absent
or its requests_per_min field is not a number, and otherwise returns
requests_per_min divided by 60 to two decimal places followed by the
req/s suffix. -/
theorem c4_format_throughput_total :
    ∀ stats : Option StatisticsResponse,
      (formatThroughputFromStats stats = "-- req/s" ↔
        stats = none ∨ ∃ s, stats = some s ∧ s.requests_per_min = none) ∧
      ∀ s rpm, stats = some s → s.requests_per_min = some rpm →
        formatThroughputFromStats stats = toFixed2 (rpm / 60) ++ " req/s" := by
  intro stats
  constructor
  · cases stats with
    | none => simp [formatThroughputFromStats]
    | some s =>
      cases h : s.requests_per_min with
      | none => simp [formatThroughputFromStats, h]
      | some rpm =>
        simp only [formatThroughputFromStats, h]
        constructor
        · intro hc
          exact absurd hc (toFixed2_append_ne_placeholder _)
        · rintro (hc | ⟨s2, hs2, hrpm⟩)
          · exact absurd hc (by simp)
          · rw [Option.some.injEq] at hs2
            rw [hs2] at h
            rw [h] at hrpm
            exact absurd hrpm (by simp)
  · intro s rpm hs hrpm
    rw [hs]
    simp [formatThroughputFromStats, hrpm]

theorem c4_witness :
    formatThroughputFromStats (some ⟨some 10, some 120, some 3600⟩) = "2.00 req/s" := by
  have h := (c4_format_throughput_total (some ⟨some 10, some 120, some 3600⟩)).2
    ⟨some 10, some 120, some 3600⟩ 120 rfl rfl
  rw [h]
  have h2 : (120 : Rat) / 60 = 2 := by norm_num
  rw [h2]
  decide

/-- C1: when the model-info response carries no numeric requests_per_min,
the load routine derives the displayed throughput from the statistics
response through formatThroughputFromStats; when requests_per_min is a
number, throughput is that value divided by 60 regardless of the
statistics outcome. -/
theorem c1_throughput_source_selection :
    ∀ (hr : Except String HealthResponse) (info : ModelInfoResponse)
      (sr : Except String StatisticsResponse) (stats : StatisticsResponse),
      (info.requests_per_min = none → sr = .ok stats →
        (load hr (.ok info) sr).throughput = formatThroughputFromStats (some stats)) ∧
      ∀ rpm, info.requests_per_min = some rpm →
        (load hr (.ok info) sr).throughput = toFixed2 (rpm / 60) ++ " req/s" := by
  intro hr info sr stats
  constructor
  · intro h hsr
    rw [hsr]
    simp [load, loadThroughput, h]
  · intro rpm h
    simp [load, loadThroughput, h]

theorem c1_witness :
    (load (.ok ⟨"ok"⟩) (.ok ⟨none, none, none⟩)
        (.ok ⟨some 1, some 30, some 5⟩)).throughput = "0.50 req/s" ∧
    (load (.ok ⟨"ok"⟩) (.ok ⟨none, none, some 120⟩) (.error "boom")).throughput
      = "2.00 req/s" := by
  constructor
  · have h := (c1_throughput_source_selection (.ok ⟨"ok"⟩) ⟨none, none, none⟩
      (.ok ⟨some 1, some 30, some 5⟩) ⟨some 1, some 30, some 5⟩).1 rfl rfl
    rw [h]
    show toFixed2 ((30 : Rat) / 60) ++ " req/s" = "0.50 req/s"
    have h2 : (30 : Rat) / 60 = mkRat 1 2 := by
      rw [Rat.mkRat_eq_div]
      norm_num
    rw [h2]
    decide
  · have h := (c1_throughput_source_selection (.ok ⟨"ok"⟩) ⟨none, none, some 120⟩
      (.error "boom") ⟨none, none, none⟩).2 120 rfl
    rw [h]
    have h2 : (120 : Rat) / 60 = 2 := by norm_num
    rw [h2]
    decide

/-- C2 counterexample: the claim that throughput is derived solely from
statistics fails on the code. With a model-info response whose
requests_per_min is 120 and a statistics response whose requests_per_min
is 30, the dashboard shows 2.00 req/s taken from the model-info response,
while the statistics-derived figure is 0.50 req/s; the ModelInfoResponse
type itself carries the requests_per_min field. -/
theorem c2_counterexample :
    (load (.ok ⟨"ok"⟩) (.ok ⟨none, none, some 120⟩)
        (.ok ⟨some 1, some 30, some 5⟩)).throughput = "2.00 req/s" ∧
    formatThroughputFromStats (some ⟨some 1, some 30, some 5⟩) = "0.50 req/s" ∧
    ModelInfoResponse.requests_per_min ⟨none, none, some 120⟩ = some 120 := by
  refine ⟨?_, ?_, rfl⟩
  · show toFixed2 ((120 : Rat) / 60) ++ " req/s" = "2.00 req/s"
    have h2 : (120 : Rat) / 60 = 2 := by norm_num
    rw [h2]
    decide
  · show toFixed2 ((30 : Rat) / 60) ++ " req/s" = "0.50 req/s"
    have h2 : (30 : Rat) / 60 = mkRat 1 2 := by
      rw [Rat.mkRat_eq_div]
      norm_num
    rw [h2]
    decide

/-- C2 amended: the model-info response does carry throughput data in its
optional requests_per_min field; whenever that field holds a number the
displayed throughput is derived from it as requests_per_min over 60, and
the statistics outcome then has no influence on the displayed figure. -/
theorem c2_amended_model_info_carries_throughput :
    ∀ (hr : Except String HealthResponse) (info : ModelInfoResponse)
      (sr sr2 : Except String StatisticsResponse) (rpm : Rat),
      info.requests_per_min = some rpm →
      (load hr (.ok info) sr).throughput = toFixed2 (rpm / 60) ++ " req/s" ∧
      (load hr (.ok info) sr).throughput = (load hr (.ok info) sr2).throughput := by
  intro hr info sr sr2 rpm h
  constructor
  · simp [load, loadThroughput, h]
  · simp [load, loadThroughput, h]

theorem c2_witness :
    (load (.ok ⟨"ok"⟩) (.ok ⟨none, none, some 120⟩)
        (.ok ⟨some 1, some 30, some 5⟩)).throughput
      = (load (.ok ⟨"ok"⟩) (.ok ⟨none, none, some 120⟩) (.error "boom")).throughput :=
  (c2_amended_model_info_carries_throughput (.ok ⟨"ok"⟩) ⟨none, none, some 120⟩
    (.ok ⟨some 1, some 30, some 5⟩) (.error "boom") 120 rfl).2

/-- C3 counterexample: the claim that every statistics response carries
exactly the four fields total_requests, alert_rate, requests_per_min and
uptime_seconds fails on the code: the StatisticsResponse type of the
dashboard declares no alert_rate field, and its declared fields are all
optional, so a response may even lack total_requests. -/
theorem c3_counterexample :
    "alert_rate" ∉ StatisticsResponseFields ∧
    StatisticsResponse.total_requests ⟨none, none, none⟩ = none := by
  exact ⟨by decide, rfl⟩

/-- C3 amended: a statistics response as the dashboard declares and
consumes it carries at most the three optional fields total_requests,
requests_per_min and uptime_seconds; alert_rate is not among the declared
fields, and getStatistics returns the parsed body unchanged on an ok
response. -/
theorem c3_amended_statistics_fields :
    (∀ res : FetchResponse StatisticsResponse,
      res.ok = true → getStatistics res = .ok res.body) ∧
    StatisticsResponseFields = ["total_requests", "requests_per_min", "uptime_seconds"] ∧
    "alert_rate" ∉ StatisticsResponseFields := by
  refine ⟨?_, rfl, by decide⟩
  intro res h
  simp [getStatistics, h]

theorem c3_witness :
    getStatistics ⟨true, 200, (⟨some 10, some 30, some 5⟩ : StatisticsResponse)⟩
      = .ok ⟨some 10, some 30, some 5⟩ :=
  c3_amended_statistics_fields.1 ⟨true, 200, ⟨some 10, some 30, some 5⟩⟩ rfl

/-- C9: each API client function getHealth, getModelInfo and getStatistics
throws exactly when the ok flag of the response is false, and otherwise
returns the parsed body of the response. -/
theorem c9_api_clients_throw_iff_not_ok :
    ∀ (rh : FetchResponse HealthResponse) (rm : FetchResponse ModelInfoResponse)
      (rs : FetchResponse StatisticsResponse),
      ((∃ e, getHealth rh = .error e) ↔ rh.ok = false) ∧
      (rh.ok = true → getHealth rh = .ok rh.body) ∧
      ((∃ e, getModelInfo rm = .error e) ↔ rm.ok = false) ∧
      (rm.ok = true → getModelInfo rm = .ok rm.body) ∧
      ((∃ e, getStatistics rs = .error e) ↔ rs.ok = false) ∧
      (rs.ok = true → getStatistics rs = .ok rs.body) := by
  intro rh rm rs
  refine ⟨?_, ?_, ?_, ?_, ?_, ?_⟩
  · cases hok : rh.ok <;> simp [getHealth, hok]
  · intro h
    simp [getHealth, h]
  · cases hok : rm.ok <;> simp [getModelInfo, hok]
  · intro h
    simp [getModelInfo, h]
  · cases hok : rs.ok <;> simp [getStatistics, hok]
  · intro h
    simp [getStatistics, h]

theorem c9_witness :
    getHealth ⟨true, 200, ⟨"ok"⟩⟩ = .ok ⟨"ok"⟩ ∧
    getModelInfo ⟨true, 200, ⟨some "m", none, none⟩⟩ = .ok ⟨some "m", none, none⟩ ∧
    getStatistics ⟨true, 200, ⟨some 10, some 30, some 5⟩⟩ = .ok ⟨some 10, some 30, some 5⟩ := by
  have h := c9_api_clients_throw_iff_not_ok ⟨true, 200, ⟨"ok"⟩⟩
    ⟨true, 200, ⟨some "m", none, none⟩⟩ ⟨true, 200, ⟨some 10, some 30, some 5⟩⟩
  exact ⟨h.2.1 rfl, h.2.2.2.1 rfl, h.2.2.2.2.2 rfl⟩

/-- C10: the load routine degrades deterministically: apiStatus is up
exactly when getHealth resolved with status ok and down in every other
case; the model name is model_name or-else xgb_version or-else the
Hybrid Model literal on a resolved getModelInfo, and Unavailable when
getModelInfo threw. -/
theorem c10_load_degrades_deterministically :
    ∀ (hr : Except String HealthResponse) (ir : Except String ModelInfoResponse)
      (sr : Except String StatisticsResponse),
      ((load hr ir sr).apiStatus = .up ↔ ∃ h, hr = .ok h ∧ h.status = "ok") ∧
      ((load hr ir sr).apiStatus = .down ↔ ¬∃ h, hr = .ok h ∧ h.status = "ok") ∧
      (∀ info, ir = .ok info →
        (load hr ir sr).modelName =
          jsOr info.model_name (jsOr info.xgb_version "Hybrid Model")) ∧
      (∀ e, ir = .error e → (load hr ir sr).modelName = "Unavailable") := by
  intro hr ir sr
  refine ⟨?_, ?_, ?_, ?_⟩
  · cases hr with
    | ok h =>
      by_cases hs : h.status = "ok" <;> simp [load, loadApiStatus, hs]
    | error e => simp [load, loadApiStatus]
  · cases hr with
    | ok h =>
      by_cases hs : h.status = "ok" <;> simp [load, loadApiStatus, hs]
    | error e => simp [load, loadApiStatus]
  · intro info h
    rw [h]
    simp [load, loadModelName]
  · intro e h
    rw [h]
    simp [load, loadModelName]

theorem c10_witness :
    (load (.ok ⟨"ok"⟩) (.ok ⟨some "prod-model", some "xgb-7", none⟩)
        (.error "s")).modelName = "prod-model" ∧
    (load (.error "h") (.ok ⟨none, some "xgb-7", none⟩) (.error "s")).modelName = "xgb-7" ∧
    (load (.error "h") (.error "i") (.error "s")).modelName = "Unavailable" := by
  refine ⟨?_, ?_, ?_⟩
  · have h := (c10_load_degrades_deterministically (.ok ⟨"ok"⟩)
      (.ok ⟨some "prod-model", some "xgb-7", none⟩) (.error "s")).2.2.1
      ⟨some "prod-model", some "xgb-7", none⟩ rfl
    rw [h]
    decide
  · have h := (c10_load_degrades_deterministically (.error "h")
      (.ok ⟨none, some "xgb-7", none⟩) (.error "s")).2.2.1
      ⟨none, some "xgb-7", none⟩ rfl
    rw [h]
    decide
  · exact (c10_load_degrades_deterministically (.error "h") (.error "i")
      (.error "s")).2.2.2 "i" rfl

/-- C5: under the default configuration the fused score of in-range
sub-scores is 0.6 times the tree score plus 0.4 times the sequence score,
the alert flag holds exactly when the fused score reaches the default
threshold 0.5, and in particular fuse 0.9 0.1 gives 0.58 with an alert. -/
theorem c5_fusion_default_weights :
    (∀ x l : Rat, 0 ≤ x → x ≤ 1 → 0 ≤ l → l ≤ 1 →
      fuse defaultFuserConfig x l = .ok (6/10 * x + 4/10 * l)) ∧
    (∀ f : Rat, isAlert defaultFuserConfig f = true ↔ 1/2 ≤ f) ∧
    fuse defaultFuserConfig (9/10) (1/10) = .ok (58/100) ∧
    isAlert defaultFuserConfig (58/100) = true := by
  refine ⟨?_, ?_, ?_, ?_⟩
  · intro x l h0x h1x h0l h1l
    rw [fuse, if_neg]
    · rfl
    · push_neg
      exact ⟨h0x, h1x, h0l, h1l⟩
  · intro f
    simp [isAlert, defaultFuserConfig]
  · rw [fuse, if_neg]
    · norm_num [defaultFuserConfig]
    · push_neg
      norm_num
  · simp only [isAlert, defaultFuserConfig]
    norm_num

theorem c5_witness :
    fuse defaultFuserConfig (9/10) (1/10) = .ok (6/10 * (9/10) + 4/10 * (1/10)) :=
  c5_fusion_default_weights.1 (9/10) (1/10) (by norm_num) (by norm_num)
    (by norm_num) (by norm_num)

/-- C6: the statistics computation never divides by zero: with no stored
predictions the alert rate is zero, with some predictions it is alerts
over total requests, and ten predictions with three alerts give 0.3. -/
theorem c6_alert_rate_no_division_by_zero :
    (∀ agg : StoreAggregate, agg.total_requests = 0 → alert_rate agg = 0) ∧
    (∀ agg : StoreAggregate, agg.total_requests ≠ 0 →
      alert_rate agg = (agg.alerts : Rat) / (agg.total_requests : Rat)) ∧
    alert_rate ⟨10, 3, 0⟩ = 3/10 ∧
    (snapshot ⟨0, 0, 0⟩ 0).alert_rate = 0 := by
  refine ⟨?_, ?_, ?_, ?_⟩
  · intro agg h
    simp [alert_rate, h]
  · intro agg h
    simp [alert_rate, h]
  · simp [alert_rate]
  · simp [snapshot, alert_rate]

theorem c6_witness :
    alert_rate ⟨0, 0, 0⟩ = 0 ∧
    alert_rate ⟨10, 3, 0⟩ = ((3 : Nat) : Rat) / ((10 : Nat) : Rat) :=
  ⟨c6_alert_rate_no_division_by_zero.1 ⟨0, 0, 0⟩ rfl,
    c6_alert_rate_no_division_by_zero.2.1 ⟨10, 3, 0⟩ (by decide)⟩

/-- C7: the post-filter is idempotent and advisory only: re-applying
filter with the same session leaves the verdict unchanged, and a single
application never alters fused_score, the sub-scores, the model version
or the computation time; only is_alert, filtered and reason may change. -/
theorem c7_filter_idempotent_and_score_preserving :
    ∀ (cfg : PostFilterConfig) (s : List Event) (v : Verdict),
      filter cfg s (filter cfg s v) = filter cfg s v ∧
      (filter cfg s v).fused_score = v.fused_score ∧
      (filter cfg s v).xgb_score = v.xgb_score ∧
      (filter cfg s v).lstm_score = v.lstm_score ∧
      (filter cfg s v).model_version = v.model_version ∧
      (filter cfg s v).computed_at = v.computed_at := by
  intro cfg s v
  unfold filter
  split_ifs <;> exact ⟨rfl, rfl, rfl, rfl, rfl, rfl⟩

theorem accept_step (client : String) (t : Int) (k : Nat) (hk : k < 100) :
    accept defaultRateLimiterConfig [(client, ⟨t, k⟩)] client t =
      .ok [(client, ⟨t, k + 1⟩)] := by
  simp [accept, lookupClient, setClient, defaultRateLimiterConfig, hk]

theorem acceptRepeat_fill (client : String) (t : Int) :
    ∀ (n k : Nat), k + n ≤ 100 →
      acceptRepeat defaultRateLimiterConfig client t n [(client, ⟨t, k⟩)] =
        some [(client, ⟨t, k + n⟩)] := by
  intro n
  induction n with
  | zero =>
    intro k hk
    simp [acceptRepeat]
  | succ m ih =>
    intro k hk
    have hs := accept_step client t k (by omega)
    have harith : k + (m + 1) = (k + 1) + m := by omega
    rw [harith]
    simp only [acceptRepeat, hs]
    exact ih (k + 1) (by omega)

theorem acceptRepeat_empty_step (client : String) (t : Int) (n : Nat) :
    acceptRepeat defaultRateLimiterConfig client t (n + 1) [] =
      acceptRepeat defaultRateLimiterConfig client t n [(client, ⟨t, 1⟩)] := by
  have h1 : accept defaultRateLimiterConfig [] client t = .ok [(client, ⟨t, 1⟩)] := by
    simp [accept, lookupClient, setClient]
  simp only [acceptRepeat, h1]

/-- C8: under the default quota of 100 admissions per 60-second window,
for every client the first 100 requests of a fresh window are admitted,
a further request inside the window is denied with the distinguishable
RateLimitExceededError, and once the window has elapsed admission
resumes with a fresh window. -/
theorem c8_rate_limiter_window :
    ∀ (client : String) (t t2 t3 : Int),
      0 ≤ t2 - t → t2 - t < 60 → 60 ≤ t3 - t →
      acceptRepeat defaultRateLimiterConfig client t 100 [] =
        some [(client, ⟨t, 100⟩)] ∧
      accept defaultRateLimiterConfig [(client, ⟨t, 100⟩)] client t2 =
        .error "RateLimitExceededError" ∧
      accept defaultRateLimiterConfig [(client, ⟨t, 100⟩)] client t3 =
        .ok [(client, ⟨t3, 1⟩)] := by
  intro client t t2 t3 h2a h2b h3
  refine ⟨?_, ?_, ?_⟩
  · have hstep := acceptRepeat_empty_step client t 99
    have hfill := acceptRepeat_fill client t 99 1 (by omega)
    rw [show (100 : Nat) = 99 + 1 from rfl, hstep, hfill]
  · simp [accept, lookupClient, defaultRateLimiterConfig, not_le.mpr h2b]
  · simp [accept, lookupClient, setClient, defaultRateLimiterConfig, h3]

theorem c8_witness :
    acceptRepeat defaultRateLimiterConfig "alice" 0 100 [] =
      some [("alice", ⟨0, 100⟩)] ∧
    accept defaultRateLimiterConfig [("alice", ⟨0, 100⟩)] "alice" 30 =
      .error "RateLimitExceededError" ∧
    accept defaultRateLimiterConfig [("alice", ⟨0, 100⟩)] "alice" 60 =
      .ok [("alice", ⟨60, 1⟩)] :=
  c8_rate_limiter_window "alice" 0 30 60 (by decide) (by decide) (by decide)
